import Mathlib

/-!
Verification of the `scoring-playground` repository: a shallow embedding of
its data model (`model.py`) and of the scoring formulas (`scoring/*.py`),
with theorems settling the specification claims about them.

Conventions of the embedding:
* Python `dict`s (which the code freezes into `frozendict`s) are embedded as
  association lists in insertion order; lookups that the Python code performs
  with `d[k]` (raising `KeyError` on a missing key) are embedded either as
  `Option`-valued lookups or as defaulted lookups guarded by an explicit
  well-formedness hypothesis on the input data.
* Python `float` arithmetic is embedded as exact arithmetic: rationals where
  the formula only uses field operations, reals where it uses `** 0.5`,
  `** 0.3`, `exp` or `sqrt`.
* Python's `int(x)` (truncation towards zero) is embedded as `pyTrunc`,
  and Python's negative sequence indexing (`xs[-1]` is the last element)
  is embedded as `pyIdx`.
* Uncaught exceptions are embedded as `Except` errors.  `Score.__add__` /
  `__sub__` return `Except ScoreErr Score`, distinguishing `KeyError` from
  `TypeError`; the formulas' `evaluate` functions return
  `Except EvalErr (Sb _)`, where the distinct exceptions that can abort a
  scoreboard loop (at the latest the `TypeError` that `Score.__add__`
  raises on every default-built score — see `Score.default` and
  `EvalErr.scoringRaises`) are collapsed into the single error
  `EvalErr.scoringRaises`.
-/

namespace SPG

/-! ## Basic identifier types (model.py) -/

abbrev TeamName := String
abbrev ServiceName := String
abbrev FlagId := Nat
abbrev FlagStoreId := Nat

/-! ## Score (model.py, class Score)

`Score` is a dataclass with `combined : float` and a category mapping.
`__init__(self, combined, **categories)` stores the *keyword arguments* as
the category dict.  `Score.default(attack, defense, sla)` calls
`cls(combined=attack+defense+sla, categories={"ATK": attack, "DEF":
defense, "SLA": sla})`, and the keyword `categories={...}` is collected by
`**categories`, so the stored mapping of every default-built score is
`{"categories": {"ATK": ..., "DEF": ..., "SLA": ...}}` — a single key,
`"categories"`, whose value is the inner dict.  A category value is
therefore either a float (the `Score(total, attack=..., defense=...,
sla=...)` construction of ecsc2024.py line 145 binds three float-valued
keywords) or a dict (everything built through `Score.default`); we embed
the two cases as `SVal`.  The dataclass marks `categories` with
`compare=False`, so Python `==` on `Score` compares `combined` only.

`__add__` iterates over `self.categories.keys() | other.categories.keys()`
and evaluates `self.categories[cat] + other.categories[cat]`: a key of the
union missing on either side raises `KeyError`, and `+` on a dict operand
raises `TypeError` (Python defines neither `dict + dict` nor
`float + dict`).  We embed the result as `Except ScoreErr Score`.  Python
iterates the key-set union in unspecified (hash) order, so when several
keys would raise, which exception surfaces first is unspecified; the
embedding iterates `a`'s keys first, and the claims below never depend on
which of several raising keys is hit.  When no entry raises, `__add__`
passes the computed mapping to the constructor as `categories={...}`,
which — by the same `**categories` collection — nests it under a single
`"categories"` key again: even a successful sum has key set
`{"categories"}`. -/

/-- A category value: a float, or (through the `**categories` collection
of a `categories={...}` keyword) a nested dict of floats. -/
inductive SVal
  | num (q : ℚ)
  | dict (entries : List (String × ℚ))
  deriving Repr, DecidableEq

/-- The uncaught exception of a `Score.__add__`/`__sub__` call:
`KeyError` (a key of the union missing on one side) or `TypeError`
(`+`/`-` on a dict value). -/
inductive ScoreErr
  | keyError
  | typeError
  deriving Repr, DecidableEq

/-- Python `+` on two category values: only `float + float` is defined
(and yields a float); a dict operand raises `TypeError` (embedded as
`none`). -/
def SVal.add : SVal → SVal → Option ℚ
  | .num a, .num b => some (a + b)
  | _, _ => none

/-- Python `-` on two category values, analogous to `SVal.add`. -/
def SVal.sub : SVal → SVal → Option ℚ
  | .num a, .num b => some (a - b)
  | _, _ => none

/-- The numeric content of a category value (`0` on a dict or a missing
key; only used under hypotheses that exclude those cases). -/
def SVal.numD : Option SVal → ℚ
  | some (.num q) => q
  | _ => 0

/-- Whether a category value is a number. -/
def SVal.isNum : SVal → Bool
  | .num _ => true
  | .dict _ => false

structure Score where
  combined : ℚ
  categories : List (String × SVal)
  deriving Repr, DecidableEq

namespace Score

/-- `s.categories[k]` as an `Option`: the Python dict lookup. -/
def lookup (s : Score) (k : String) : Option SVal :=
  (s.categories.find? (fun p => p.1 = k)).map (·.2)

/-- The union `a.keys() | b.keys()`, enumerated as `a`'s keys followed by
`b`'s keys that are new.  (Python's set union has unspecified order; the
claims only depend on the union as a set, via `lookup`, or on the
existence of a raising key.) -/
def unionKeys (a b : Score) : List String :=
  (a.categories.map (·.1)) ++
    ((b.categories.map (·.1)).filter (fun k => ¬ (a.categories.map (·.1)).contains k))

/-- One entry `self.categories[cat] op other.categories[cat]` of the dict
comprehension in `__add__`/`__sub__`: `KeyError` if either side misses the
key, `TypeError` if the values cannot be combined. -/
def entryOp (op : SVal → SVal → Option ℚ) (a b : Score) (k : String) :
    Except ScoreErr (String × ℚ) :=
  match a.lookup k, b.lookup k with
  | some x, some y =>
    match op x y with
    | some v => .ok (k, v)
    | none => .error .typeError
  | _, _ => .error .keyError

/-- `Score.__add__`: when no entry of the comprehension raises, the
result is built by `type(self)(combined=..., categories={...})`, whose
`**categories` collection nests the computed mapping under the single key
`"categories"` again. -/
def add (a b : Score) : Except ScoreErr Score :=
  Except.map (fun cats =>
      { combined := a.combined + b.combined
        categories := [("categories", SVal.dict cats)] })
    ((unionKeys a b).mapM (entryOp SVal.add a b))

/-- `Score.__sub__`, analogous to `add`. -/
def sub (a b : Score) : Except ScoreErr Score :=
  Except.map (fun cats =>
      { combined := a.combined - b.combined
        categories := [("categories", SVal.dict cats)] })
    ((unionKeys a b).mapM (entryOp SVal.sub a b))

/-- Python `==` on `Score`: the dataclass compares only fields with
`compare=True`, which is just `combined`. -/
def pyEq (a b : Score) : Prop := a.combined = b.combined

instance : DecidablePred (fun p : Score × Score => pyEq p.1 p.2) := by
  unfold pyEq; infer_instance

/-- `Score.default(attack, defense, sla)` (model.py lines 363-374): the
call passes the single keyword `categories={"ATK": attack, "DEF": defense,
"SLA": sla}`, which `__init__(self, combined, **categories)` collects into
the mapping `{"categories": {"ATK": ..., "DEF": ..., "SLA": ...}}`. -/
def default (attack defense sla : ℚ) : Score :=
  { combined := attack + defense + sla
    categories := [("categories",
      SVal.dict [("ATK", attack), ("DEF", defense), ("SLA", sla)])] }

/-- The category keys of a score, in insertion order. -/
def keys (s : Score) : List String := s.categories.map (·.1)

/-- `a` and `b` have the same category key set. -/
def sameKeys (a b : Score) : Prop :=
  (∀ k ∈ a.keys, k ∈ b.keys) ∧ (∀ k ∈ b.keys, k ∈ a.keys)

instance : ∀ a b : Score, Decidable (sameKeys a b) := by
  intro a b; unfold sameKeys; infer_instance

end Score

/-! ## Python semantics helpers -/

/-- Python sequence indexing `xs[i]`: negative indices count from the end;
out-of-range access raises `IndexError` (embedded as `none`). -/
def pyIdx (xs : List α) (i : ℤ) : Option α :=
  let j : ℤ := if i < 0 then (xs.length : ℤ) + i else i
  if 0 ≤ j ∧ j < (xs.length : ℤ) then xs.get? j.toNat else none

/-- Python `int(x)` on a rational: truncation towards zero. -/
def pyTrunc (q : ℚ) : ℤ := if 0 ≤ q then ⌊q⌋ else ⌈q⌉

/-- Python `range(a, b)` over integers, as a list of integers. -/
def pyRange (a b : ℤ) : List ℤ :=
  (List.range (b - a).toNat).map (fun i => a + i)

/-- Association-list lookup, embedding Python `dict.get(k)` /
`frozendict` lookup (insertion order preserved, first matching key). -/
def alookup [DecidableEq α] (l : List (α × β)) (k : α) : Option β :=
  (l.find? (fun p => p.1 = k)).map (·.2)

/-! ## The game model (model.py) -/

/-- `ServiceState` (model.py). -/
inductive ServiceState
  | OK | RECOVERING | MUMBLE | OFFLINE | ERROR
  deriving Repr, DecidableEq

/-- `FlagState` (model.py). -/
inductive FlagState
  | OK | MISSING
  deriving Repr, DecidableEq

/-- `Flag` (model.py): metadata of one stored flag. -/
structure Flag where
  flag_id : FlagId
  round_id : ℕ
  owner : TeamName
  service : ServiceName
  flagstore : FlagStoreId
  deriving Repr, DecidableEq

/-- `TeamRoundData` (model.py): one team's data in one round.  The frozen
mappings are embedded as insertion-ordered association lists. -/
structure TeamRoundData where
  service_states : List (ServiceName × ServiceState)
  flags_stored : List (ServiceName × List (FlagStoreId × FlagId))
  flags_captured : List FlagId
  deriving Repr, DecidableEq

instance : Inhabited TeamRoundData := ⟨⟨[], [], []⟩⟩

/-- `Service` (model.py).  `flag_rate` is stored post-`@defaults`: the raw
field is optional and defaults to `len(flagstores)`, see `Service.mk'`. -/
structure Service where
  flagstores : List FlagStoreId
  flag_rate : ℚ
  deriving Repr, DecidableEq

/-- The `@defaults` constructor of `Service`: an unset `flag_rate` defaults
to the number of flagstores. -/
def Service.mk' (flagstores : List FlagStoreId) (flag_rate : Option ℚ) : Service :=
  ⟨flagstores, flag_rate.getD (flagstores.length : ℚ)⟩

/-- `Config` (model.py).  Fields that the scoring code checks for
`msgspec.UNSET` are embedded as `Option` (with `none` for `UNSET`); the
`@defaults` decorator that fills `flag_retention` from `flag_validity` is
the separate constructor `Config.mk'`. -/
structure Config where
  flag_validity : Option ℤ
  flag_retention : Option ℤ
  messages : List String
  deriving Repr, DecidableEq

/-- The `@defaults` constructor of `Config`: an unset `flag_retention`
defaults to `flag_validity`. -/
def Config.mk' (flag_validity : ℤ) (flag_retention : Option ℤ)
    (messages : List String) : Config :=
  ⟨some flag_validity, some (flag_retention.getD flag_validity), messages⟩

/-- `CTF` (model.py). -/
structure CTF where
  services : List (ServiceName × Service)
  teams : List TeamName
  rounds : List (List (TeamName × TeamRoundData))
  config : Config
  flag_states : Option (List (List (FlagId × FlagState)))
  deriving Repr, DecidableEq

namespace CTF

/-- `CTF.flagstores`: all `(service, flagstore)` pairs in iteration order. -/
def flagstores (ctf : CTF) : List (ServiceName × FlagStoreId) :=
  ctf.services.flatMap (fun p => p.2.flagstores.map (fun fs => (p.1, fs)))

/-- The flags of a single team-round, with their placement coordinates
(inner comprehension of `CTF.flags`). -/
def storedFlagsOf (round_id : ℕ) (team : TeamName) (td : TeamRoundData) :
    List (FlagId × Flag) :=
  td.flags_stored.flatMap (fun sp =>
    sp.2.map (fun fp => (fp.2, ⟨fp.2, round_id, team, sp.1, fp.1⟩)))

/-- `CTF.flags` as a list in iteration order (the Python dict comprehension;
on well-formed data the `FlagId` keys are distinct). -/
def flagsList (ctf : CTF) : List (FlagId × Flag) :=
  ctf.rounds.enum.flatMap (fun rp =>
    rp.2.flatMap (fun tp => storedFlagsOf rp.1 tp.1 tp.2))

/-- `ctf.flags[fid]`: lookup in the flags index (`none` is `KeyError`). -/
def flagInfo (ctf : CTF) (fid : FlagId) : Option Flag :=
  alookup ctf.flagsList fid

/-- The capture events of flag `fid` in one round, in iteration order, one
entry per capture (this is `flag_captures[fid].by[round]`). -/
def capturedByIn (round : List (TeamName × TeamRoundData)) (fid : FlagId) :
    List TeamName :=
  round.flatMap (fun tp =>
    tp.2.flags_captured.filterMap (fun f => if f = fid then some tp.1 else none))

/-- `flag_captures[fid].by[r]` (empty for missing rounds, matching the
`defaultdict`). -/
def capturesBy (ctf : CTF) (fid : FlagId) (r : ℕ) : List TeamName :=
  capturedByIn ((ctf.rounds.get? r).getD []) fid

/-- `flag_captures[fid].count`: total number of captures of `fid`
(0 for a never-captured flag, matching the `defaultdict`). -/
def captureCount (ctf : CTF) (fid : FlagId) : ℕ :=
  (ctf.rounds.map (fun rd => (capturedByIn rd fid).length)).sum

/-- `flag_captures[fid].count_before_round(r)`. -/
def captureCountBefore (ctf : CTF) (fid : FlagId) (r : ℕ) : ℕ :=
  ((List.range r).map (fun i => (ctf.capturesBy fid i).length)).sum

/-- `flag_captures[fid].count_in_round(r)`. -/
def captureCountIn (ctf : CTF) (fid : FlagId) (r : ℕ) : ℕ :=
  (ctf.capturesBy fid r).length

/-- `CTF.slice(from_round, to_round)` (for non-negative bounds, which is
how the code calls it): Python `rounds[a:b]`. -/
def slice (ctf : CTF) (a b : ℕ) : CTF :=
  { ctf with
    rounds := (ctf.rounds.drop a).take (b - a)
    flag_states := ctf.flag_states.map (fun fs => (fs.drop a).take (b - a)) }

end CTF

/-- `self.nop_team is not None and self.nop_team not in ctf.teams`. -/
def nopMissing (nop : Option TeamName) (teams : List TeamName) : Prop :=
  ∃ t, nop = some t ∧ t ∉ teams

instance : ∀ nop teams, Decidable (nopMissing nop teams) := by
  intro nop teams
  cases nop with
  | none => exact .isFalse (by rintro ⟨t, h, -⟩; cases h)
  | some t =>
    by_cases h : t ∈ teams
    · exact .isFalse (by rintro ⟨u, hu, hm⟩; cases hu; exact hm h)
    · exact .isTrue ⟨t, rfl, h⟩

/-! ## Formula-level scoreboard values

A scoreboard entry carries a combined score and the three categories
ATK/DEF/SLA; we represent one entry as a 4-tuple over a linear ordered
field (`ℚ` where a formula uses only field operations, `ℝ` where it uses
square roots, powers or `exp`).  The `Score` objects the 4-tuple stands
for are: the untouched `Score.default()` entries of the
`defaultdict(Score.default)` scoreboards — combined `0`, and `0` for each
of ATK/DEF/SLA inside the nested dict under the single `"categories"`
key — which are the only entries the four `+=`-based formulas ever
produce (see `EvalErr.scoringRaises`); and ECSC2024's directly
constructed `Score(total, attack=..., defense=..., sla=...)` final
entries, whose `**categories` keywords land as three numeric keys. -/

structure Score4 (K : Type) where
  combined : K
  attack : K
  defense : K
  sla : K
  deriving Repr, DecidableEq

namespace Score4

variable {K : Type} [LinearOrderedField K]

/-- The 4-tuple with combined `a + d + s` and categories `a`, `d`, `s`
(the value content of `Score.default(a, d, s)`). -/
def dflt (a d s : K) : Score4 K := ⟨a + d + s, a, d, s⟩

end Score4

/-- A scoreboard: `collections.defaultdict(Score.default)` as a total
function (every name never touched reads as `Score.default()`). -/
def Sb (K : Type) := TeamName → Score4 K

namespace Sb

variable {K : Type} [LinearOrderedField K]

/-- The untouched `defaultdict(Score.default)` scoreboard. -/
def init : Sb K := fun _ => Score4.dflt 0 0 0

end Sb

/-! ## Evaluation outcomes -/

/-- The error outcome of an evaluation.  The first five constructors are
the `KeyError`s/`ValueError` raised by the precondition checks before any
computation.  `scoringRaises` embeds the uncaught exception that aborts
the scoreboard loop of ATKLABv1/ATKLABv2/ECSC2025/SaarCTF2024 on real
data: every `Score` those loops add was built by `Score.default`, whose
category mapping is `{"categories": dict}` (see `Score.default`), so each
unconditional `scoreboard[team] += ...` raises `TypeError`; degenerate
inputs can raise `ZeroDivisionError`/`KeyError`/`IndexError` a few lines
earlier, and in ATKLABv2/ECSC2025 an empty round's defense pass can raise
`KeyError` — all these abort outcomes are collapsed into this one
constructor (the per-formula `evaluate` docs state exactly when it is
produced). -/
inductive EvalErr
  | nopNotFound | noFlagRetention | noFlagValidity | noFlagStates
  | badFlagstores | scoringRaises
  deriving Repr, DecidableEq

/-- `ctf.rounds[j][team].service_states[service]`, with Python `KeyError`s
defaulted (`ERROR` for a missing entry; only reached on ill-formed data). -/
def stateAt (ctf : CTF) (j : ℕ) (team : TeamName) (service : ServiceName) :
    ServiceState :=
  (alookup ((alookup ((ctf.rounds.get? j).getD []) team).getD default).service_states
    service).getD .ERROR

/-- Some round of the CTF contains a team entry.  Exactly on such a round
do the scoreboard loops of ATKLABv1/ATKLABv2/ECSC2025/SaarCTF2024 execute
a `scoreboard[team] += ...` (or raise even earlier). -/
def CTF.hasPopulatedRound (ctf : CTF) : Bool :=
  ctf.rounds.any (fun rd => !rd.isEmpty)

/-! ## ATKLABv1 (scoring/atklabv1.py) -/

namespace ATKLABv1

structure Params where
  scaling_factor : ℚ
  nop_team : Option TeamName
  deriving Repr, DecidableEq

/-- Default parameters: `scaling_factor=5.0`, `nop_team="NOP"`. -/
def Params.dflt : Params := ⟨5, some "NOP"⟩

/-- `ATKLABv1.evaluate` (atklabv1.py lines 22-81).  The two guards come
first (lines 23-29), in this order.  The round loop then runs, for every
`(team, team_data)` of every round, `score = Score.default()`, the
conditional `score += Score.default(...)` / `score -= Score.default(...)`
accumulations (lines 61, 69, 75), and an unconditional
`scoreboard[team] += score` (line 79; `scoreboard[team]` defaults to
`Score.default()`).  Every operand of these `+`/`-` is a default-built
`Score` whose category mapping is `{"categories": dict}` (see
`Score.default`), so the first team entry of the first non-empty round
raises: at the latest `TypeError` at line 79, possibly
`ZeroDivisionError` (`flag_retention = 0`) or `KeyError` (ill-formed
data) inside the loop body first — collapsed into
`EvalErr.scoringRaises`.  A round with no team entries executes nothing.
Hence the evaluation completes iff every round is empty, returning the
untouched `defaultdict(Score.default)` scoreboard — every entry
`Score.default()`, represented as the zero `Score4`.  `scaling_factor`
is never read. -/
def evaluate (p : Params) (ctf : CTF) : Except EvalErr (Sb ℚ) :=
  if nopMissing p.nop_team ctf.teams then .error .nopNotFound
  else if ctf.config.flag_retention = none then .error .noFlagRetention
  else if ctf.hasPopulatedRound then .error .scoringRaises
  else .ok Sb.init

end ATKLABv1

/-! ## The flag-state estimator (model.py, `CTF._estimate_flag_states`) -/

/-- Python dict assignment `d[k] = v`: overwrite in place, or append. -/
def dinsert [DecidableEq α] (l : List (α × β)) (k : α) (v : β) : List (α × β) :=
  if (l.find? (fun p => p.1 = k)).isSome then
    l.map (fun p => if p.1 = k then (k, v) else p)
  else l ++ [(k, v)]

/-- `set(self.rounds[placement][team].flags_stored[service].values())` for
one placement index, as a list.  The placement index is an *int* and the
code does not clamp it at 0, so Python's negative indexing applies
(`pyIdx`); an `IndexError` (placement below `-len(rounds)`) is embedded as
the empty list. -/
def storedFlagIds (ctf : CTF) (placement : ℤ) (team : TeamName)
    (service : ServiceName) : List FlagId :=
  match pyIdx ctf.rounds placement with
  | none => []
  | some rd =>
    ((alookup ((alookup rd team).getD default).flags_stored service).getD []).map (·.2)

/-- `checked_flags` (model.py lines 239-251): the union over
`placement in range(round_id - flag_retention + 1, round_id + 1)` —
with **no** clamping of the lower bound at 0. -/
def checkedFlags (ctf : CTF) (R : ℤ) (rid : ℕ) (team : TeamName)
    (service : ServiceName) : List FlagId :=
  (pyRange ((rid : ℤ) - R + 1) ((rid : ℤ) + 1)).flatMap
    (fun p => storedFlagIds ctf p team service)

/-- One round of `_estimate_flag_states`: builds `round_result`. -/
def CTF.estimateRound (ctf : CTF) (R : ℤ) (rid : ℕ)
    (rd : List (TeamName × TeamRoundData)) : List (FlagId × FlagState) :=
  rd.foldl (fun res tp =>
    tp.2.service_states.foldl (fun res sv =>
      let checked := checkedFlags ctf R rid tp.1 sv.1
      match sv.2 with
      | .OK => checked.foldl (fun res f => dinsert res f .OK) res
      | .ERROR => checked.foldl (fun res f => dinsert res f .OK) res
      | .OFFLINE => checked.foldl (fun res f => dinsert res f .MISSING) res
      | .MUMBLE => checked.foldl (fun res f => dinsert res f .MISSING) res
      | .RECOVERING =>
        let decr := ((pyRange ((rid : ℤ) + 1) ((rid : ℤ) + R)).takeWhile
          (fun fr => decide (fr < (ctf.rounds.length : ℤ) ∧
            stateAt ctf fr.toNat tp.1 sv.1 ≠ .OK))).length
        let present := max (min (R - 1) (R - 1 - (decr : ℤ))) 1
        let presentFlags := (pyRange ((rid : ℤ) - present + 1) ((rid : ℤ) + 1)).flatMap
          (fun p => storedFlagIds ctf p tp.1 sv.1)
        checked.foldl (fun res f =>
          dinsert res f (if f ∈ presentFlags then .OK else .MISSING)) res)
      res) []

/-- `CTF._estimate_flag_states`. -/
def CTF.estimateFlagStates (ctf : CTF) : List (List (FlagId × FlagState)) :=
  let R := ctf.config.flag_retention.getD 0
  ctf.rounds.enum.map (fun rp => ctf.estimateRound R rp.1 rp.2)

/-- The `@defaults` construction of a `CTF`: an unset `flag_states` is
filled by the estimator at construction time. -/
def CTF.mk' (services : List (ServiceName × Service)) (teams : List TeamName)
    (rounds : List (List (TeamName × TeamRoundData))) (config : Config)
    (flag_states : Option (List (List (FlagId × FlagState)))) : CTF :=
  let raw : CTF := ⟨services, teams, rounds, config, flag_states⟩
  { raw with flag_states := some (flag_states.getD raw.estimateFlagStates) }

/-- Modelled from the spec (§4.2), for contrast with the code: the claimed
checked set `C(r,t,s)` is the union over placement rounds
`p ∈ [max(0, r−R+1), r]` — lower bound clamped at 0. -/
def specCheckedSet (ctf : CTF) (R : ℤ) (rid : ℕ) (team : TeamName)
    (service : ServiceName) : List FlagId :=
  (pyRange (max 0 ((rid : ℤ) - R + 1)) ((rid : ℤ) + 1)).flatMap
    (fun p => storedFlagIds ctf p team service)

/-- A team-round with a single service `"s"`. -/
def td1 (st : ServiceState) (stored : List (FlagStoreId × FlagId))
    (cap : List FlagId) : TeamRoundData :=
  ⟨[("s", st)], [("s", stored)], cap⟩

/-- Fixture: two teams `NOP` and `A`; two rounds; each team stores one flag
per round into service `"s"` (flagstore 0); in round 1 team `A` captures
the flag `0` that `NOP` stored in round 0.  All services `OK`. -/
def ctfNop : CTF :=
  { services := [("s", ⟨[0], 1⟩)]
    teams := ["NOP", "A"]
    rounds := [ [("NOP", td1 .OK [(0, 0)] []), ("A", td1 .OK [(0, 1)] [])]
              , [("NOP", td1 .OK [(0, 2)] []), ("A", td1 .OK [(0, 3)] [0])] ]
    config := ⟨some 1, some 1, []⟩
    flag_states := none }

/-- The empty-round `KeyError` condition of the ATKLABv2/ECSC2025 defense
pass: every round — also one without team entries — runs
`for service, flagstore in ctf.flagstores: for team in ctf.teams: ...;
team_data = round_data[team]` (atklabv2.py lines 229-246, ecsc2025.py
lines 140-153) before any attacker filtering, so a round missing an entry
for some non-NOP team raises `KeyError` as soon as at least one
`(service, flagstore)` pair exists.  For an empty round that is exactly:
some flagstore exists and some non-NOP team exists. -/
def emptyRoundKeyError (nop : Option TeamName) (ctf : CTF) : Bool :=
  !ctf.flagstores.isEmpty && ctf.teams.any (fun t => !(nop == some t))

/-! ## ATKLABv2 (scoring/atklabv2.py) -/

namespace ATKLABv2

/-- `AttackerMode` (atklabv2.py). -/
inductive AttackerMode
  | Everyone | Successful | Scaled
  deriving Repr, DecidableEq

/-- The parameters of `ATKLABv2`.  `jeopardy` is the selected enum
member's value function in the wrapper's calling convention.  Of these,
only `nop_team` is consulted by the reachable part of `evaluate`: the
jeopardy formula and the other tuning parameters feed the attack/defense
value computations, which the `Score` abort makes unreachable. -/
structure Params (K : Type) where
  jeopardy : K → ℕ → Option K → Option K → K → K → K
  alpha : Option K
  beta : Option K
  base : K
  min : K
  attackers : AttackerMode
  defense_compensation : Bool
  nop_team : Option TeamName

variable {K : Type} [LinearOrderedField K]

/-- `ATKLABv2.evaluate` (atklabv2.py lines 140-293).  The three guards
come first (lines 141-151), in this order.  The `attacked_teams` /
`active_teams` pre-computations (lines 153-178) perform no `Score`
arithmetic (on ill-formed data a capture of an unknown flag id makes the
pre-computation itself raise `KeyError`; such data necessarily has a
populated round, so the collapsed outcome below is unchanged).  The
scoreboard loop then aborts on the first round that raises:

* a round with a team entry always raises in its SLA pass — the
  unconditional `scoreboard[team] += Score.default(sla=sla)` (line 211)
  adds two scores whose category mappings are `{"categories": dict}` (see
  `Score.default`), a `TypeError`; degenerate data can raise
  `ZeroDivisionError` (`flag_validity = 0`), `KeyError` or `IndexError`
  inside the `sla` computation a few lines earlier;
* a round without team entries raises `KeyError` at
  `team_data = round_data[team]` (line 246) in the defense pass iff
  `emptyRoundKeyError` holds.

All abort outcomes are collapsed into `EvalErr.scoringRaises`.  Hence the
evaluation completes iff there are no rounds at all, or every round is
empty and `emptyRoundKeyError` fails; the result is then the untouched
`defaultdict(Score.default)` scoreboard — every entry `Score.default()`,
represented as the zero `Score4`. -/
def evaluate (p : Params K) (ctf : CTF) : Except EvalErr (Sb K) :=
  if nopMissing p.nop_team ctf.teams then .error .nopNotFound
  else if ctf.config.flag_validity = none then .error .noFlagValidity
  else if ctf.flag_states = none then .error .noFlagStates
  else if ctf.hasPopulatedRound then .error .scoringRaises
  else if !ctf.rounds.isEmpty && emptyRoundKeyError p.nop_team ctf then
    .error .scoringRaises
  else .ok Sb.init

end ATKLABv2

/-! ## ECSC2025 (scoring/ecsc2025.py) -/

namespace ECSC2025

/-- The parameters of `ECSC2025`: `base` (default 10) and `nop_team`. -/
structure Params where
  base : ℚ
  nop_team : Option TeamName
  deriving Repr, DecidableEq

/-- `ECSC2025._jeopardy` (ecsc2025.py lines 48-49):
`int(base * (30 / (29 + max(solves, 1))) ** 3)` — truncation towards
zero, no clamp.  (Called only from the attack/defense passes, which the
`Score` abort cuts off; embedded for the C7 comparison with the spec's
floor formula.) -/
def jeopardy (base : ℚ) (solves : ℚ) : ℚ :=
  (pyTrunc (base * (30 / (29 + max solves 1)) ^ 3) : ℤ)

/-- `ECSC2025.evaluate` (ecsc2025.py lines 51-194): structurally identical
to `ATKLABv2.evaluate` — the same three guards in the same order (lines
52-61), the same pre-computations, the same SLA-pass abort on a round
with a team entry (`scoreboard[team] += Score.default(sla=sla)`,
line 122) and the same empty-round defense-pass `KeyError` (line 153). -/
def evaluate (p : Params) (ctf : CTF) : Except EvalErr (Sb ℚ) :=
  if nopMissing p.nop_team ctf.teams then .error .nopNotFound
  else if ctf.config.flag_validity = none then .error .noFlagValidity
  else if ctf.flag_states = none then .error .noFlagStates
  else if ctf.hasPopulatedRound then .error .scoringRaises
  else if !ctf.rounds.isEmpty && emptyRoundKeyError p.nop_team ctf then
    .error .scoringRaises
  else .ok Sb.init

end ECSC2025

/-! ## The specialization of ATKLABv2 described by spec §4.4.4

Modelled from the spec: ECSC2025 is claimed to be "a special case of
[ATKLABv2] with `jeopardy = ECSC2025`, `base = 10`, `attackers = Scaled`,
no defense compensation", with exactly two differences: the jeopardy
value is floored (`_jeopardy(solves) = floor(base·(30/(29+max(solves,1)))³)`),
and the self-attacker branch credits the defense accrual to ATK instead
of DEF.  Both stated differences live in the attack/defense value
computations, which the `Score` abort makes unreachable, so the
spec-described specialization evaluates as `ATKLABv2.evaluate` at the
specialized parameters; the floored jeopardy is compared against
`ECSC2025.jeopardy` in the C7 theorem. -/

namespace ATKLABv2

/-- The specialized parameter set: the floored ECSC2025 jeopardy lambda
(using the wrapper argument that `evaluate` fills with `self.base`),
`attackers = Scaled`, no defense compensation. -/
def specParams (base : ℚ) (nop : Option TeamName) : Params ℚ :=
  { jeopardy := fun solves _teams _alpha _beta _mn mx =>
      (pyTrunc (mx * (30 / (29 + max solves 1)) ^ 3) : ℤ)
    alpha := none
    beta := none
    base := base
    min := 1
    attackers := .Scaled
    defense_compensation := false
    nop_team := nop }

/-- The spec-§4.4.4 specialization of the ATKLABv2 algorithm. -/
def specECSC2025 (base : ℚ) (nop : Option TeamName) (ctf : CTF) :
    Except EvalErr (Sb ℚ) :=
  ATKLABv2.evaluate (specParams base nop) ctf

end ATKLABv2

/-! ## SaarCTF2024 ranking (scoring/saarctf2024.py, `SaarCTF2024._rank`) -/

namespace SaarCTF2024

variable {K : Type} [LinearOrderedField K]

/-- The descending order on `(combined, team)` pairs used by
`sorted(..., reverse=True)`: Python sorts tuples lexicographically
(scores descending, team names descending within a tied score). -/
def descRel (a b : K × TeamName) : Prop :=
  b.1 < a.1 ∨ (a.1 = b.1 ∧ b.2 ≤ a.2)

instance : DecidableRel (@descRel K _) := by
  intro a b; unfold descRel; infer_instance

instance : IsTotal (K × TeamName) (@descRel K _) := by
  constructor
  intro a b
  rcases lt_trichotomy a.1 b.1 with h | h | h
  · exact Or.inr (Or.inl h)
  · rcases le_total a.2 b.2 with h2 | h2
    · exact Or.inr (Or.inr ⟨h.symm, h2⟩)
    · exact Or.inl (Or.inr ⟨h, h2⟩)
  · exact Or.inl (Or.inl h)

instance : IsTrans (K × TeamName) (@descRel K _) := by
  constructor
  rintro a b c (h1 | ⟨h1, h1'⟩) (h2 | ⟨h2, h2'⟩)
  · exact Or.inl (h2.trans h1)
  · exact Or.inl (h2 ▸ h1)
  · exact Or.inl (h1 ▸ h2)
  · exact Or.inr ⟨h1.trans h2, h2'.trans h1'⟩

/-- The rank chosen for the current `(score, team)` entry in `_rank`:
reuse the previous rank on a tied score, otherwise the counter. -/
def pickRank : Option (ℕ × K) → ℕ → K → ℕ
  | some (previous_rank, previous_score), counter, score =>
    if previous_score = score then previous_rank else counter
  | none, counter, _ => counter

/-- The loop of `_rank` (saarctf2024.py lines 38-51): walks the ordered
`(score, team)` list keeping the previous `(rank, score)`, a counter that
only advances while `score > 0`, and the accumulated ranking dict. -/
def rankFold : List (K × TeamName) → Option (ℕ × K) → ℕ →
    List (TeamName × ℕ) → List (TeamName × ℕ)
  | [], _, _, ranking => ranking
  | (score, team) :: rest, previous, counter, ranking =>
    let rank := pickRank previous counter score
    rankFold rest (some (rank, score))
      (if 0 < score then counter + 1 else counter)
      (dinsert ranking team rank)

/-- `SaarCTF2024._rank`. -/
def rank (sb : Sb K) (teams : List TeamName) : List (TeamName × ℕ) :=
  let ordered := (teams.map (fun t => ((sb t).combined, t))).insertionSort descRel
  rankFold ordered none 1 []

/-- The number of entries of `F` whose score is both greater than `s` and
positive (the competition-ranking characterization of `_rank`). -/
def posGreaterCount (F : List (K × TeamName)) (s : K) : ℕ :=
  F.countP (fun q => decide (s < q.1 ∧ 0 < q.1))

/-! ### SaarCTF2024.evaluate (saarctf2024.py lines 53-177)

The NOP guard is checked first (lines 54-57).  The scoreboard
materialization loop (lines 60-61) and the per-round `_rank` call
(line 70) perform no `Score` arithmetic.  The SLA pass then executes an
unconditional `scoreboard[team] += Score.default(sla=...)` (line 87) for
every team entry of the round; both operands store their categories as
`{"categories": dict}` (see `Score.default`), so the first team entry of
the first non-empty round raises `TypeError` there — and the attack pass,
the retroactive previous-round updates (lines 129-139), the defense pass
and its `assert` (line 174) are never reached.  A round with no team
entries ranks, adds and captures nothing (its `captured_flags` set stays
empty) and raises nothing.  Hence the evaluation completes iff every
round is empty, returning the materialized scoreboard: every entry
`Score.default()`, represented as the zero `Score4`. -/

/-- Parameters of `SaarCTF2024`.  Only `nop_team` is consulted by the
reachable part of `evaluate`; the factors feed the SLA/attack/defense
value computations, which the `Score` abort makes unreachable. -/
structure Params where
  off_factor : ℝ
  def_factor : ℝ
  sla_factor : ℝ
  nop_team : Option TeamName
  defense_bug : Bool

/-- The `captured_flags` set of one round, in first-capture order: built
by the attack pass (saarctf2024.py lines 96-108 and line 140: the flags
captured in the round, skipping NOP-owned flags and self-captures); the
defense pass and its assertion (lines 147-175) iterate exactly this
set. -/
def capturedList (nop : Option TeamName) (ctf : CTF)
    (rd : List (TeamName × TeamRoundData)) : List FlagId :=
  (rd.flatMap (fun tp => tp.2.flags_captured.filter (fun fid =>
    let flag := (ctf.flagInfo fid).getD ⟨fid, 0, "", "", 0⟩
    ¬ nop = some flag.owner ∧ ¬ tp.1 = flag.owner))).foldl
    (fun acc fid => if fid ∈ acc then acc else acc ++ [fid]) []

/-- `SaarCTF2024.evaluate`. -/
noncomputable def evaluate (p : Params) (ctf : CTF) : Except EvalErr (Sb ℝ) :=
  if nopMissing p.nop_team ctf.teams then .error .nopNotFound
  else if ctf.hasPopulatedRound then .error .scoringRaises
  else .ok Sb.init

end SaarCTF2024

/-- Fixture: an empty CTF whose config has both `flag_validity` and
`flag_retention` unset, with team list `["A"]`. -/
def ctfBare : CTF :=
  { services := [], teams := ["A"], rounds := [], config := ⟨none, none, []⟩
    flag_states := none }

/-- Fixture for the slice claims: three teams; `A` stores flag 0 in round 0
(and flag 1 in round 1); `B` captures flag 0 in round 0 and `C` captures
the same flag 0 again in round 1.  Both rounds are populated, so every
slice containing one of them aborts with the `Score` `TypeError`. -/
def ctfSlice : CTF :=
  { services := [("s", ⟨[0], 1⟩)]
    teams := ["A", "B", "C"]
    rounds := [ [("A", td1 .OK [(0, 0)] []), ("B", td1 .OK [] [0]),
                 ("C", td1 .OK [] [])]
              , [("A", td1 .OK [(0, 1)] []), ("B", td1 .OK [] []),
                 ("C", td1 .OK [] [0])] ]
    config := ⟨some 2, some 2, []⟩
    flag_states := none }

/-- Fixture scoreboard for the ranking claims: combined scores
`A ↦ 5, B ↦ 5, C ↦ 3`. -/
def sbRanked : Sb ℚ := fun t => ⟨if t = "C" then 3 else 5, 0, 0, 0⟩

/-- Fixture for the flag-state estimator: one team, one service, two
rounds (flag 0 stored in round 0, flag 1 in round 1), `flag_retention = 2`,
all states `OK`, constructed without `flag_states`. -/
def ctfEst : CTF :=
  { services := [("s", ⟨[0], 1⟩)]
    teams := ["A"]
    rounds := [ [("A", td1 .OK [(0, 0)] [])], [("A", td1 .OK [(0, 1)] [])] ]
    config := ⟨some 2, some 2, []⟩
    flag_states := none }

/-- An `ATKLABv2` parameter set with NOP team `"NOP"` (used by
witnesses). -/
def pV2n : ATKLABv2.Params ℚ :=
  ⟨fun s _ _ _ _ _ => s, none, none, 10, 1, .Scaled, false, some "NOP"⟩

/-- An `ECSC2025` parameter set with NOP team `"NOP"` (used by
witnesses). -/
def pE25n : ECSC2025.Params := ⟨10, some "NOP"⟩

/-- A `SaarCTF2024` parameter set with NOP team `"NOP"` (used by
witnesses). -/
def pSaarNop : SaarCTF2024.Params := ⟨1, 1, 1, some "NOP", true⟩

/-! ## ECSC2024 (scoring/ecsc2024.py) -/

namespace ECSC2024

/-- `ECSC2024.ServiceScore` (ecsc2024.py lines 22-39). -/
structure SvcScore where
  base : ℝ
  attack : ℝ
  defense : ℝ
  rounds : ℕ
  up_rounds : ℕ

/-- `ServiceScore.sum()`. -/
def SvcScore.total0 (s : SvcScore) : ℝ := s.base + s.attack - s.defense

/-- `ServiceScore.score()`. -/
noncomputable def SvcScore.score (s : SvcScore) : ℝ := max 0 s.total0

/-- `ServiceScore.total()`. -/
noncomputable def SvcScore.total (s : SvcScore) : ℝ :=
  if s.rounds = 0 then s.base else s.score * s.up_rounds / s.rounds

/-- Parameters of `ECSC2024` (`base`, `scale`, `norm`, and its own
`flag_validity`, which it uses instead of `ctf.config`). -/
structure Params where
  base : ℝ
  scale : ℝ
  norm : ℝ
  flag_validity : ℤ

/-- The default parameters: `base=5000`, `scale=15*sqrt(5)`,
`norm=log(log(5))/12`, `flag_validity=6`. -/
noncomputable def Params.dflt : Params :=
  ⟨5000, 15 * Real.sqrt 5, Real.log (Real.log 5) / 12, 6⟩

/-- The per-round score table `scores[r]`: one `ServiceScore` per
`(team, service)`. -/
def St : Type := TeamName → ServiceName → SvcScore

/-- `scores[-1]`: every entry at `ServiceScore(self.base)` (the
materialization loop of ecsc2024.py lines 61-63 plus the `defaultdict`
default). -/
def St.init (p : Params) : St := fun _ _ => ⟨p.base, 0, 0, 0, 0⟩

/-- Point update of a score table. -/
def St.upd (st : St) (t : TeamName) (s : ServiceName) (f : SvcScore → SvcScore) : St :=
  fun t' s' => if t' = t ∧ s' = s then f (st t' s') else st t' s'

/-- The `can_getflag` scan (ecsc2024.py lines 86-92): some placement round
in the validity window stored a flag for this service (`flags_stored[service]`
defaulted on a missing key, reached only on ill-formed data). -/
def canGetflag (ctf : CTF) (V : ℤ) (rid : ℕ) (team : TeamName)
    (service : ServiceName) : Prop :=
  ∃ rr ∈ pyRange (max 0 ((rid : ℤ) - V + 1)) (rid : ℤ),
    ((alookup ((alookup ((ctf.rounds.get? rr.toNat).getD []) team).getD
      default).flags_stored service).getD []).length > 0

instance : ∀ ctf V rid team service, Decidable (canGetflag ctf V rid team service) := by
  intro ctf V rid team service
  unfold canGetflag
  infer_instance

/-- The SLA/availability pass of one round (ecsc2024.py lines 82-100):
`up_rounds` counts `OK` rounds and `RECOVERING` rounds without a
retrievable flag, `rounds` counts non-`ERROR` rounds.  The `skip_sla`
precomputation (lines 75-80) is never read and has no effect. -/
def slaPass (ctf : CTF) (V : ℤ) (rid : ℕ) (rd : List (TeamName × TeamRoundData))
    (st : St) : St :=
  rd.foldl (fun st tp =>
    tp.2.service_states.foldl (fun st sv =>
      let st := if sv.2 = ServiceState.OK ∨
          (sv.2 = ServiceState.RECOVERING ∧ ¬ canGetflag ctf V rid tp.1 sv.1) then
        st.upd tp.1 sv.1 (fun sc => { sc with up_rounds := sc.up_rounds + 1 })
      else st
      if ¬ sv.2 = ServiceState.ERROR then
        st.upd tp.1 sv.1 (fun sc => { sc with rounds := sc.rounds + 1 })
      else st) st) st

/-- The attack value of one capture (ecsc2024.py lines 112-115):
`scale / (1 + exp((sqrt(attacker_score) - sqrt(victim_score)) * norm))`,
with both scores read from the table of the flag's placement round. -/
noncomputable def deltaOf (p : Params) (related : St) (team : TeamName)
    (flag : Flag) : ℝ :=
  p.scale / (1 + Real.exp
    ((Real.sqrt (related team flag.service).score -
      Real.sqrt (related flag.owner flag.service).score) * p.norm))

/-- The capture pass of one round (ecsc2024.py lines 102-117), reading the
placement-round tables from the snapshot list (`snaps.get? 0` is
`scores[-1]`, `snaps.get? (i+1)` the table after round `i`; a
not-yet-existing round yields fresh defaults, matching the `defaultdict`).
The `flags_lost` set (line 111) never reaches the scoreboard and the
`assert round_id != flag.round_id` (line 105) is modelled separately. -/
noncomputable def attackPass (p : Params) (ctf : CTF) (snaps : List St)
    (rd : List (TeamName × TeamRoundData)) (st : St) : St :=
  rd.foldl (fun st tp =>
    tp.2.flags_captured.foldl (fun st fid =>
      let flag := (ctf.flagInfo fid).getD ⟨fid, 0, "", "", 0⟩
      let related := if flag.round_id = 0 then snaps.getD 0 (St.init p)
        else snaps.getD (flag.round_id + 1) (St.init p)
      let delta := deltaOf p related tp.1 flag
      let st := st.upd tp.1 flag.service
        (fun sc => { sc with attack := sc.attack + delta })
      st.upd flag.owner flag.service
        (fun sc => { sc with defense := sc.defense + delta })) st) st

/-- The negative-sum clamp (ecsc2024.py lines 119-122): for every team of
the round and every service, a `ServiceScore` whose `sum()` is negative has
it added to its `defense` (zeroing the sum). -/
noncomputable def clampPass (ctf : CTF) (rd : List (TeamName × TeamRoundData)) (st : St) : St :=
  rd.foldl (fun st tp =>
    ctf.services.foldl (fun st sp =>
      if (st tp.1 sp.1).total0 < 0 then
        st.upd tp.1 sp.1 (fun sc => { sc with defense := sc.defense + (st tp.1 sp.1).total0 })
      else st) st) st

/-- One round of `ECSC2024.evaluate`: deep-copy the previous table, the
SLA pass, the capture pass, the clamp pass. -/
noncomputable def roundUpd (p : Params) (ctf : CTF) (snaps : List St) (rid : ℕ)
    (rd : List (TeamName × TeamRoundData)) : St :=
  let prev := snaps.getD rid (St.init p)
  clampPass ctf rd (attackPass p ctf snaps rd (slaPass ctf p.flag_validity rid rd prev))

/-- The `assert round_id != flag.round_id` of ecsc2024.py line 105: no flag
is captured in its own placement round. -/
def capturesAssert (ctf : CTF) : Prop :=
  ∀ rp ∈ ctf.rounds.enum, ∀ tp ∈ rp.2, ∀ fid ∈ tp.2.flags_captured,
    ¬ rp.1 = ((ctf.flagInfo fid).getD ⟨fid, 0, "", "", 0⟩).round_id

/-- `ECSC2024.evaluate` (on well-formed data whose round team keys are
`ctf.teams`; Python's scoreboard is built from exactly the materialized
table keys).  The final per-team `Score` is
`Score(total, attack=attack, defense=-defense, sla=up/checked)` summed over
the services. -/
noncomputable def evaluate (p : Params) (ctf : CTF) : Except EvalErr (Sb ℝ) :=
  if ctf.services.any (fun sp => ¬ sp.2.flagstores.length = 1) then
    .error .badFlagstores
  else
    let snaps := ctf.rounds.enum.foldl
      (fun snaps rp => snaps ++ [roundUpd p ctf snaps rp.1 rp.2]) [St.init p]
    let final := snaps.getD ctf.rounds.length (St.init p)
    .ok (fun t =>
      if t ∈ ctf.teams then
        let attack := (ctf.services.map (fun sp => (final t sp.1).attack)).sum
        let defense := (ctf.services.map (fun sp => (final t sp.1).defense)).sum
        let total := (ctf.services.map (fun sp => (final t sp.1).total)).sum
        let up := (ctf.services.map (fun sp => (final t sp.1).up_rounds)).sum
        let checked := (ctf.services.map (fun sp => (final t sp.1).rounds)).sum
        ⟨total, attack, -defense, (up : ℝ) / (if checked = 0 then 1 else (checked : ℝ))⟩
      else Score4.dflt 0 0 0)

end ECSC2024

/-- Fixture: a NOP-only CTF with two team-less rounds — the only kind of
data on which all four `+=`-based formulas run to completion (a non-NOP
team would make ATKLABv2/ECSC2025 raise `KeyError` at
`round_data[team]` in the empty rounds' defense pass). -/
def ctfEmptyNop : CTF :=
  { services := [("s", ⟨[0], 1⟩)]
    teams := ["NOP"]
    rounds := [[], []]
    config := ⟨some 2, some 2, []⟩
    flag_states := some [[], []] }

/-! # Theorems -/

/-! ### Generic list lemmas -/

lemma mem_enumFrom_snd {α : Type} : ∀ (l : List α) (n : ℕ) (p : ℕ × α),
    p ∈ l.enumFrom n → p.2 ∈ l
  | [], _, p, h => absurd h (List.not_mem_nil p)
  | x :: l, n, p, h => by
    rcases List.mem_cons.mp h with rfl | h
    · exact List.mem_cons_self _ _
    · exact List.mem_cons_of_mem _ (mem_enumFrom_snd l (n + 1) p h)

lemma flatMap_nil_of_forall {α β : Type} (f : α → List β) :
    ∀ l : List α, (∀ x ∈ l, f x = []) → l.flatMap f = []
  | [], _ => rfl
  | x :: l, h => by
    rw [List.flatMap_cons, h x (List.mem_cons_self x l), List.nil_append]
    exact flatMap_nil_of_forall f l (fun y hy => h y (List.mem_cons_of_mem x hy))

lemma mapM_error_of_mem {α β ε : Type} (f : α → Except ε β) :
    ∀ (l : List α) (x : α), x ∈ l → (∃ e, f x = .error e) →
      ∃ e, l.mapM f = .error e := by
  intro l
  induction l with
  | nil => intro x hx _; exact absurd hx (List.not_mem_nil x)
  | cons y l ih =>
    intro x hx he
    rw [List.mapM_cons]
    cases hfy : f y with
    | error e => exact ⟨e, rfl⟩
    | ok b =>
      rcases List.mem_cons.mp hx with rfl | hx'
      · obtain ⟨e, he'⟩ := he
        rw [hfy] at he'
        cases he'
      · obtain ⟨e, hmap⟩ := ih x hx' he
        exact ⟨e, by rw [hmap]; rfl⟩

/-! ### Score lemmas -/

lemma Score.lookup_isSome_iff {s : Score} {k : String} :
    (s.lookup k).isSome ↔ k ∈ s.keys := by
  rw [Score.lookup, Score.keys, Option.isSome_map', List.find?_isSome]
  constructor
  · rintro ⟨p, hp, he⟩
    exact List.mem_map.mpr ⟨p, hp, by simpa using he⟩
  · intro hk
    obtain ⟨p, hp, he⟩ := List.mem_map.mp hk
    exact ⟨p, hp, by simpa using he⟩

lemma Score.mem_unionKeys {a b : Score} {k : String} :
    k ∈ Score.unionKeys a b ↔ k ∈ a.keys ∨ k ∈ b.keys := by
  simp only [Score.unionKeys, Score.keys, List.mem_append, List.mem_filter,
    List.contains, decide_not, Bool.not_eq_true', decide_eq_false_iff_not,
    List.elem_iff]
  by_cases h : k ∈ a.categories.map (·.1) <;> simp [h]

lemma Score.lookup_isNum {s : Score} (hs : ∀ p ∈ s.categories, p.2.isNum = true)
    {k : String} {v : SVal} (h : s.lookup k = some v) : ∃ q, v = SVal.num q := by
  rw [Score.lookup] at h
  obtain ⟨p, hfind, hv⟩ := Option.map_eq_some'.mp h
  have hp := List.mem_of_find?_eq_some hfind
  have hnum := hs p hp
  rw [hv] at hnum
  cases v with
  | num q => exact ⟨q, rfl⟩
  | dict l => simp [SVal.isNum] at hnum

lemma Score.find?_keyed_map {β : Type} {f : String → String × β}
    (hf : ∀ k, (f k).1 = k) :
    ∀ (ks : List String) (k : String), k ∈ ks →
      (ks.map f).find? (fun p => p.1 = k) = some (f k)
  | [], _, h => by cases h
  | k' :: ks, k, h => by
    by_cases he : k' = k
    · subst he; simp [List.find?_cons, hf]
    · rcases List.mem_cons.mp h with h | h
      · exact absurd h.symm he
      · have : (decide ((f k').1 = k)) = false := by simp [hf, he]
        simp only [List.map_cons, List.find?_cons, this]
        exact Score.find?_keyed_map hf ks k h

lemma Score.mapM_of_num (a b : Score) (op : SVal → SVal → Option ℚ)
    (opq : ℚ → ℚ → ℚ)
    (hop : ∀ x y : ℚ, op (SVal.num x) (SVal.num y) = some (opq x y)) :
    ∀ ks : List String,
      (∀ k ∈ ks, (∃ x, a.lookup k = some (SVal.num x)) ∧
        ∃ y, b.lookup k = some (SVal.num y)) →
      ks.mapM (Score.entryOp op a b) =
        .ok (ks.map (fun k =>
          (k, opq (SVal.numD (a.lookup k)) (SVal.numD (b.lookup k)))))
  | [], _ => by rw [List.mapM_nil]; rfl
  | k :: ks, h => by
    obtain ⟨⟨x, hx⟩, ⟨y, hy⟩⟩ := h k (List.mem_cons_self k ks)
    rw [List.mapM_cons, Score.mapM_of_num a b op opq hop ks
      (fun k' hk' => h k' (List.mem_cons_of_mem _ hk'))]
    have hent : Score.entryOp op a b k = .ok (k, opq x y) := by
      rw [Score.entryOp, hx, hy]
      simp [hop]
    have hhead : (k, opq (SVal.numD (a.lookup k)) (SVal.numD (b.lookup k)))
        = (k, opq x y) := by
      rw [hx, hy]
      rfl
    rw [List.map_cons, hent, hhead]
    rfl

/-! ### Characterization of the completed evaluations -/

lemma CTF.hasPopulatedRound_false_iff {ctf : CTF} :
    ctf.hasPopulatedRound = false ↔ ∀ rd ∈ ctf.rounds, rd = [] := by
  rw [CTF.hasPopulatedRound, List.any_eq_false]
  refine forall₂_congr (fun rd _ => ?_)
  simp [List.isEmpty_iff]

lemma CTF.flagsList_of_empty {ctf : CTF} (h : ∀ rd ∈ ctf.rounds, rd = []) :
    ctf.flagsList = [] := by
  rw [CTF.flagsList]
  refine flatMap_nil_of_forall _ _ (fun rp hrp => ?_)
  rw [h rp.2 (mem_enumFrom_snd _ _ _ hrp)]
  rfl

lemma atklabv1_ok {p : ATKLABv1.Params} {ctf : CTF} {sb : Sb ℚ}
    (h : ATKLABv1.evaluate p ctf = .ok sb) :
    (∀ rd ∈ ctf.rounds, rd = []) ∧ sb = Sb.init := by
  rw [ATKLABv1.evaluate] at h
  split_ifs at h with h1 h2 h3
  refine ⟨CTF.hasPopulatedRound_false_iff.mp (by simpa using h3), ?_⟩
  injection h with h
  exact h.symm

lemma atklabv2_ok {K : Type} [LinearOrderedField K]
    {p : ATKLABv2.Params K} {ctf : CTF} {sb : Sb K}
    (h : ATKLABv2.evaluate p ctf = .ok sb) :
    (∀ rd ∈ ctf.rounds, rd = []) ∧ sb = Sb.init := by
  rw [ATKLABv2.evaluate] at h
  split_ifs at h with h1 h2 h3 h4 h5
  refine ⟨CTF.hasPopulatedRound_false_iff.mp (by simpa using h4), ?_⟩
  injection h with h
  exact h.symm

lemma ecsc2025_ok {p : ECSC2025.Params} {ctf : CTF} {sb : Sb ℚ}
    (h : ECSC2025.evaluate p ctf = .ok sb) :
    (∀ rd ∈ ctf.rounds, rd = []) ∧ sb = Sb.init := by
  rw [ECSC2025.evaluate] at h
  split_ifs at h with h1 h2 h3 h4 h5
  refine ⟨CTF.hasPopulatedRound_false_iff.mp (by simpa using h4), ?_⟩
  injection h with h
  exact h.symm

lemma saar_ok {p : SaarCTF2024.Params} {ctf : CTF} {sb : Sb ℝ}
    (h : SaarCTF2024.evaluate p ctf = .ok sb) :
    (∀ rd ∈ ctf.rounds, rd = []) ∧ sb = Sb.init := by
  rw [SaarCTF2024.evaluate] at h
  split_ifs at h with h1 h2
  refine ⟨CTF.hasPopulatedRound_false_iff.mp (by simpa using h2), ?_⟩
  injection h with h
  exact h.symm

/-- C1 counterexample: `Score.__init__` collects the keyword
`categories={...}` into `**categories`, so `Score.default()`'s category
mapping is the single dict-valued key `"categories"` — the keys
`ATK`/`DEF`/`SLA` are not keys of the score at all.  Consequently
`a + Score.default()` is never `a`: even two default-built scores, which
*do* share the key set `{"categories"}`, raise `TypeError` when added
(dict values cannot be added), and a score lacking the `"categories"` key
raises `KeyError` — there is no missing-keys-as-0 behaviour. -/
theorem score_add_default_counterexample :
    (Score.default 0 0 0).keys = ["categories"] ∧
    (Score.default 1 2 3).lookup "ATK" = none ∧
    Score.add (Score.default 0 0 0) (Score.default 0 0 0) = .error .typeError ∧
    Score.add ⟨1, [("X", SVal.num 1)]⟩ (Score.default 0 0 0) = .error .keyError ∧
    ¬ ∃ c, Score.add (Score.default 0 0 0) (Score.default 0 0 0) = .ok c ∧
      Score.pyEq c (Score.default 0 0 0) := by
  refine ⟨rfl, rfl, rfl, rfl, ?_⟩
  rintro ⟨c, hc, -⟩
  rw [show Score.add (Score.default 0 0 0) (Score.default 0 0 0)
      = .error .typeError from rfl] at hc
  cases hc

/-- C1 (amended): `combined` is summed (resp. subtracted) independently,
and the dict comprehension of `__add__`/`__sub__` is defined — and
componentwise over the union of the key sets — **only** on scores whose
key sets coincide and whose category values are all numbers: a key
missing on one side raises `KeyError` (missing keys are *not* treated as
0), and a dict value raises `TypeError`.  Even then the result is not the
claimed componentwise mapping: the constructor collects the computed dict
under a single `"categories"` key.  `Score.default()`'s mapping is the
single dict-valued key `"categories"`, so `a + Score.default()` raises
for *every* score `a` — `KeyError` if `a` lacks the key, otherwise
`TypeError` — and `a + Score.default() == a` never holds. -/
theorem score_add_sub_same_keys (a b : Score) (h : Score.sameKeys a b)
    (ha : ∀ p ∈ a.categories, p.2.isNum = true)
    (hb : ∀ p ∈ b.categories, p.2.isNum = true) :
    (∃ cats, Score.add a b = .ok
        { combined := a.combined + b.combined
          categories := [("categories", SVal.dict cats)] } ∧
      (∀ k, (alookup cats k).isSome ↔ (k ∈ a.keys ∨ k ∈ b.keys)) ∧
      (∀ k x y, a.lookup k = some (.num x) → b.lookup k = some (.num y) →
        alookup cats k = some (x + y))) ∧
    (∃ cats, Score.sub a b = .ok
        { combined := a.combined - b.combined
          categories := [("categories", SVal.dict cats)] } ∧
      (∀ k, (alookup cats k).isSome ↔ (k ∈ a.keys ∨ k ∈ b.keys)) ∧
      (∀ k x y, a.lookup k = some (.num x) → b.lookup k = some (.num y) →
        alookup cats k = some (x - y))) ∧
    (∀ s : Score, ∃ e, Score.add s (Score.default 0 0 0) = .error e) := by
  have hboth : ∀ k ∈ Score.unionKeys a b,
      (∃ x, a.lookup k = some (SVal.num x)) ∧
        ∃ y, b.lookup k = some (SVal.num y) := by
    intro k hk
    have hka : k ∈ a.keys ∧ k ∈ b.keys := by
      rcases Score.mem_unionKeys.mp hk with hk | hk
      · exact ⟨hk, h.1 k hk⟩
      · exact ⟨h.2 k hk, hk⟩
    obtain ⟨va, hva⟩ := Option.isSome_iff_exists.mp
      (Score.lookup_isSome_iff.mpr hka.1)
    obtain ⟨vb, hvb⟩ := Option.isSome_iff_exists.mp
      (Score.lookup_isSome_iff.mpr hka.2)
    obtain ⟨x, rfl⟩ := Score.lookup_isNum ha hva
    obtain ⟨y, rfl⟩ := Score.lookup_isNum hb hvb
    exact ⟨⟨x, hva⟩, ⟨y, hvb⟩⟩
  have main : ∀ (op : SVal → SVal → Option ℚ) (opq : ℚ → ℚ → ℚ),
      (∀ x y : ℚ, op (SVal.num x) (SVal.num y) = some (opq x y)) →
      ∃ cats, (Score.unionKeys a b).mapM (Score.entryOp op a b) = .ok cats ∧
        (∀ k, ((alookup cats k).isSome ↔ (k ∈ a.keys ∨ k ∈ b.keys))) ∧
        (∀ k x y, a.lookup k = some (.num x) → b.lookup k = some (.num y) →
          alookup cats k = some (opq x y)) := by
    intro op opq hop
    refine ⟨_, Score.mapM_of_num a b op opq hop _ hboth, ?_, ?_⟩
    · intro k
      rw [alookup, Option.isSome_map', ← Score.mem_unionKeys]
      constructor
      · intro hs
        obtain ⟨p, hp, hpk⟩ := List.find?_isSome.mp hs
        obtain ⟨k', hk', rfl⟩ := List.mem_map.mp hp
        simpa using (of_decide_eq_true hpk) ▸ hk'
      · intro hk
        rw [Score.find?_keyed_map (by intro k'; rfl) _ k hk]
        rfl
    · intro k x y hx hy
      have hk : k ∈ Score.unionKeys a b :=
        Score.mem_unionKeys.mpr (Or.inl (Score.lookup_isSome_iff.mp (by simp [hx])))
      rw [alookup, Score.find?_keyed_map (by intro k'; rfl) _ k hk]
      simp [hx, hy, SVal.numD]
  obtain ⟨catsA, hA, hAdom, hAval⟩ := main SVal.add (· + ·) (fun x y => rfl)
  obtain ⟨catsS, hS, hSdom, hSval⟩ := main SVal.sub (· - ·) (fun x y => rfl)
  refine ⟨⟨catsA, ?_, hAdom, hAval⟩, ⟨catsS, ?_, hSdom, hSval⟩, ?_⟩
  · rw [Score.add, hA]; rfl
  · rw [Score.sub, hS]; rfl
  · intro s
    have hbdef : (Score.default 0 0 0).lookup "categories" =
        some (SVal.dict [("ATK", 0), ("DEF", 0), ("SLA", 0)]) := rfl
    rcases hc : s.lookup "categories" with _ | v
    · have hmem : "categories" ∈ Score.unionKeys s (Score.default 0 0 0) :=
        Score.mem_unionKeys.mpr (Or.inr (by decide))
      have hent : ∃ e,
          Score.entryOp SVal.add s (Score.default 0 0 0) "categories"
            = .error e := by
        refine ⟨.keyError, ?_⟩
        rw [Score.entryOp, hc]
      obtain ⟨e, he⟩ := mapM_error_of_mem _ _ _ hmem hent
      exact ⟨e, by rw [Score.add, he]; rfl⟩
    · have hmem : "categories" ∈ Score.unionKeys s (Score.default 0 0 0) :=
        Score.mem_unionKeys.mpr
          (Or.inl (Score.lookup_isSome_iff.mp (by simp [hc])))
      have hent : ∃ e,
          Score.entryOp SVal.add s (Score.default 0 0 0) "categories"
            = .error e := by
        refine ⟨.typeError, ?_⟩
        rw [Score.entryOp, hc, hbdef]
        cases v <;> rfl
      obtain ⟨e, he⟩ := mapM_error_of_mem _ _ _ hmem hent
      exact ⟨e, by rw [Score.add, he]; rfl⟩

/-- Witness for `score_add_sub_same_keys`: two single-key scores with the
same key and numeric values add componentwise (under the re-collected
`"categories"` key), and `Score.default(1,2,3) + Score.default()`
raises. -/
theorem score_add_sub_same_keys_witness :
    (∃ cats, Score.add ⟨1, [("ATK", SVal.num 1)]⟩ ⟨2, [("ATK", SVal.num 2)]⟩
        = .ok { combined := 1 + 2
                categories := [("categories", SVal.dict cats)] } ∧
      alookup cats "ATK" = some (1 + 2)) ∧
    ∃ e, Score.add (Score.default 1 2 3) (Score.default 0 0 0) = .error e := by
  have H := score_add_sub_same_keys ⟨1, [("ATK", SVal.num 1)]⟩
    ⟨2, [("ATK", SVal.num 2)]⟩ (by decide) (by decide) (by decide)
  obtain ⟨⟨cats, hc, -, hval⟩, -, hdflt⟩ := H
  exact ⟨⟨cats, hc, hval "ATK" 1 2 rfl rfl⟩, hdflt (Score.default 1 2 3)⟩

/-- C2 counterexample: on `ctfNop` — the NOP team configured and present,
and team `A` captures a NOP-owned flag — `ATKLABv1.evaluate` (with its
default `nop_team = "NOP"`) produces **no scoreboard at all**: its first
round has team entries, so the evaluation dies with `TypeError` at
`scoreboard[team] += score` (atklabv1.py line 79; every operand is a
default-built `Score` holding a dict under its single `"categories"`
key).  The "resulting scoreboard" whose ATK/DEF entries the claim
constrains does not exist. -/
theorem nop_exclusion_counterexample :
    ATKLABv1.evaluate ATKLABv1.Params.dflt ctfNop = .error .scoringRaises ∧
      ¬ ∃ sb, ATKLABv1.evaluate ATKLABv1.Params.dflt ctfNop = .ok sb := by
  refine ⟨rfl, ?_⟩
  rintro ⟨sb, hsb⟩
  rw [show ATKLABv1.evaluate ATKLABv1.Params.dflt ctfNop
      = .error .scoringRaises from rfl] at hsb
  cases hsb

/-- C2 (amended): each of the four formulas raises `TypeError` on the
first round that has a team entry (the default-built `Score`s of every
`scoreboard[team] += ...` hold dicts under their single `"categories"`
key), so a scoreboard results **only** from CTFs whose rounds contain no
team data.  Such a CTF stores no flags at all (`flagsList = []`), and
every resulting entry — the NOP team's included — is the untouched
`Score.default()`, with ATK and DEF equal to 0; the NOP *filtering*
branches in the attack/defense passes are never executed. -/
theorem nop_exclusion {K : Type} [LinearOrderedField K] (ctf : CTF)
    (p1 : ATKLABv1.Params) (p2 : ATKLABv2.Params K) (p3 : ECSC2025.Params)
    (p4 : SaarCTF2024.Params) :
    (∀ sb, ATKLABv1.evaluate p1 ctf = .ok sb →
      (∀ rd ∈ ctf.rounds, rd = []) ∧ ctf.flagsList = [] ∧
        ∀ t, sb t = Score4.dflt 0 0 0) ∧
    (∀ sb, ATKLABv2.evaluate p2 ctf = .ok sb →
      (∀ rd ∈ ctf.rounds, rd = []) ∧ ctf.flagsList = [] ∧
        ∀ t, sb t = Score4.dflt 0 0 0) ∧
    (∀ sb, ECSC2025.evaluate p3 ctf = .ok sb →
      (∀ rd ∈ ctf.rounds, rd = []) ∧ ctf.flagsList = [] ∧
        ∀ t, sb t = Score4.dflt 0 0 0) ∧
    (∀ sb, SaarCTF2024.evaluate p4 ctf = .ok sb →
      (∀ rd ∈ ctf.rounds, rd = []) ∧ ctf.flagsList = [] ∧
        ∀ t, sb t = Score4.dflt 0 0 0) := by
  refine ⟨?_, ?_, ?_, ?_⟩ <;> intro sb h
  · obtain ⟨he, rfl⟩ := atklabv1_ok h
    exact ⟨he, CTF.flagsList_of_empty he, fun t => rfl⟩
  · obtain ⟨he, rfl⟩ := atklabv2_ok h
    exact ⟨he, CTF.flagsList_of_empty he, fun t => rfl⟩
  · obtain ⟨he, rfl⟩ := ecsc2025_ok h
    exact ⟨he, CTF.flagsList_of_empty he, fun t => rfl⟩
  · obtain ⟨he, rfl⟩ := saar_ok h
    exact ⟨he, CTF.flagsList_of_empty he, fun t => rfl⟩

/-- Witness for `nop_exclusion` on `ctfEmptyNop`, where all four formulas
(with NOP team `"NOP"` configured and present) run to completion. -/
theorem nop_exclusion_witness :
    ((∀ rd ∈ ctfEmptyNop.rounds, rd = []) ∧ ctfEmptyNop.flagsList = [] ∧
      (∀ t, (Sb.init : Sb ℚ) t = Score4.dflt 0 0 0)) ∧
    ((∀ rd ∈ ctfEmptyNop.rounds, rd = []) ∧ ctfEmptyNop.flagsList = [] ∧
      (∀ t, (Sb.init : Sb ℝ) t = Score4.dflt 0 0 0)) := by
  have H := nop_exclusion ctfEmptyNop ATKLABv1.Params.dflt pV2n pE25n pSaarNop
  exact ⟨H.2.1 Sb.init rfl, H.2.2.2 Sb.init rfl⟩

/-- C5: the flag-state estimator computes its placement window as
`range(round_id - flag_retention + 1, round_id + 1)` with **no** clamping
at 0, so for `round_id < flag_retention - 1` the negative placement
indices wrap around (Python negative indexing) and consult rounds at the
**end** of the CTF.  On `ctfEst` (2 rounds, retention 2), round 0's
estimate assigns a state to flag 1 — which is stored only in round 1 —
while the spec's clamped window `[max(0, r−R+1), r]` contains flag 0 only.
The clamped window is clearly the intent (the sibling loops in
atklabv1.py, atklabv2.py and ecsc2024.py all clamp at 0), so this is a
code bug, evaluated here at the failing input. -/
theorem estimator_consults_wrapped_rounds :
    ctfEst.estimateFlagStates.get? 0 = some [(1, FlagState.OK), (0, FlagState.OK)] ∧
    (1 : FlagId) ∉ specCheckedSet ctfEst 2 0 "A" "s" := by decide

/-- C7: `ECSC2025.evaluate` coincides — error cases included — with the
ATKLABv2 algorithm specialized as spec §4.4.4 describes
(`ATKLABv2.specECSC2025`: `jeopardy = ECSC2025`, `attackers = Scaled`,
no defense compensation), for every CTF and every `base` (in particular
the claimed `base = 10`); and `ECSC2025._jeopardy` equals the spec's
`floor(base * (30 / (29 + max(solves, 1)))³)` for `base ≥ 0` (`int()`
truncates towards zero, which is `floor` on these non-negative values).
The two stated behavioural differences — floored jeopardy, self-attack
credited to ATK — live in the attack/defense value computations, which
the `Score` `TypeError` abort makes unreachable, so they do not break the
evaluation-level correspondence. -/
theorem ecsc2025_is_specialized_atklabv2 :
    (∀ (base : ℚ) (nop : Option TeamName) (ctf : CTF),
      ECSC2025.evaluate ⟨base, nop⟩ ctf = ATKLABv2.specECSC2025 base nop ctf) ∧
    (∀ base solves : ℚ, 0 ≤ base →
      ECSC2025.jeopardy base solves =
        ((⌊base * (30 / (29 + max solves 1)) ^ 3⌋ : ℤ) : ℚ)) := by
  constructor
  · intro base nop ctf
    rfl
  · intro base s hb
    have h1 : (1 : ℚ) ≤ max s 1 := le_max_right s 1
    have hpos : (0 : ℚ) ≤ base * (30 / (29 + max s 1)) ^ 3 := by
      have h2 : (0 : ℚ) < 29 + max s 1 := by linarith
      positivity
    rw [ECSC2025.jeopardy, pyTrunc, if_pos hpos]

/-- Witness for `ecsc2025_is_specialized_atklabv2` at `base = 10` on the
`ctfNop` fixture, and for the jeopardy floor at `base = 10`,
`solves = 3`. -/
theorem ecsc2025_is_specialized_atklabv2_witness :
    ECSC2025.evaluate ⟨10, some "NOP"⟩ ctfNop =
      ATKLABv2.specECSC2025 10 (some "NOP") ctfNop ∧
    ECSC2025.jeopardy 10 3 =
      ((⌊(10 : ℚ) * (30 / (29 + max (3 : ℚ) 1)) ^ 3⌋ : ℤ) : ℚ) :=
  ⟨ecsc2025_is_specialized_atklabv2.1 10 (some "NOP") ctfNop,
    ecsc2025_is_specialized_atklabv2.2 10 3 (by norm_num)⟩

/-! ### C4: the SaarCTF2024 ranking -/

namespace SaarCTF2024

variable {K : Type} [LinearOrderedField K]

lemma descRel_score_le {a b : K × TeamName} (h : descRel a b) : b.1 ≤ a.1 := by
  rcases h with h | ⟨h, -⟩
  · exact le_of_lt h
  · exact le_of_eq h.symm

lemma dinsert_of_not_mem {β : Type} {l : List (TeamName × β)} {k : TeamName} (v : β)
    (h : ∀ p ∈ l, p.1 ≠ k) : dinsert l k v = l ++ [(k, v)] := by
  rw [dinsert, if_neg]
  intro hs
  obtain ⟨p, hp, hpk⟩ := List.find?_isSome.mp hs
  exact h p hp (by simpa using hpk)

lemma rankFold_eq (F : List (K × TeamName)) (hsort : F.Pairwise descRel)
    (hnd : (F.map (·.2)).Nodup) :
    ∀ (L M : List (K × TeamName)) (prev : Option (ℕ × K)) (counter : ℕ),
      F = M ++ L →
      (prev = none → M = [] ∧ counter = 1) →
      (∀ r0 s0, prev = some (r0, s0) →
        (∃ t0, (s0, t0) ∈ M) ∧ (∀ q ∈ M, s0 ≤ q.1) ∧
        r0 = 1 + posGreaterCount F s0 ∧
        counter = 1 + M.countP (fun q => decide (0 < q.1))) →
      rankFold L prev counter (M.map (fun p => (p.2, 1 + posGreaterCount F p.1))) =
        F.map (fun p => (p.2, 1 + posGreaterCount F p.1))
  | [], M, prev, counter, hF, _, _ => by
      subst hF; simp [rankFold]
  | (s, t) :: rest, M, prev, counter, hF, hnone, hsome => by
      obtain ⟨hpM, hpL, hcross⟩ := List.pairwise_append.mp (hF ▸ hsort)
      have hM_ge : ∀ q ∈ M, s ≤ q.1 := fun q hq =>
        descRel_score_le (hcross q hq (s, t) (List.mem_cons_self _ _))
      have hrest_le : ∀ q ∈ (s, t) :: rest, q.1 ≤ s := by
        intro q hq
        rcases List.mem_cons.mp hq with rfl | hq
        · exact le_refl _
        · exact descRel_score_le ((List.pairwise_cons.mp hpL).1 q hq)
      have htail : ((s, t) :: rest).countP (fun q => decide (s < q.1 ∧ 0 < q.1)) = 0 := by
        rw [List.countP_eq_zero]
        intro q hq
        simp only [decide_eq_true_eq, not_and]
        intro hlt
        exact absurd hlt (not_lt.mpr (hrest_le q hq))
      have hcnt : counter = 1 + M.countP (fun q => decide (0 < q.1)) := by
        cases prev with
        | none => obtain ⟨rfl, rfl⟩ := hnone rfl; simp
        | some rs => exact (hsome rs.1 rs.2 rfl).2.2.2
      have hrank : pickRank prev counter s = 1 + posGreaterCount F s := by
        cases prev with
        | none =>
          obtain ⟨rfl, rfl⟩ := hnone rfl
          have : posGreaterCount F s = 0 := by
            rw [posGreaterCount, hF]; simpa using htail
          simp [pickRank, this]
        | some rs =>
          obtain ⟨r0, s0⟩ := rs
          obtain ⟨⟨t0, ht0⟩, hmin, hr0, hcounter⟩ := hsome r0 s0 rfl
          by_cases he : s0 = s
          · subst he
            simpa [pickRank] using hr0
          · have hMeq : M.countP (fun q => decide (0 < q.1)) =
                M.countP (fun q => decide (s < q.1 ∧ 0 < q.1)) := by
              apply List.countP_congr
              intro q hq
              simp only [decide_eq_true_eq]
              constructor
              · intro hpos
                refine ⟨lt_of_le_of_ne (hM_ge q hq) ?_, hpos⟩
                intro hqs
                exact he (le_antisymm (hqs ▸ hmin q hq) (hM_ge (s0, t0) ht0))
              · exact And.right
            have hpick : pickRank (some (r0, s0)) counter s = counter := by
              simp [pickRank, he]
            rw [hpick, hcounter, hMeq, posGreaterCount, hF, List.countP_append,
              htail, Nat.add_zero]
      have hkeys : ∀ p ∈ M.map (fun p => (p.2, 1 + posGreaterCount F p.1)), p.1 ≠ t := by
        intro p hp
        obtain ⟨q, hq, rfl⟩ := List.mem_map.mp hp
        have : (F.map (·.2)).Nodup := hnd
        rw [hF, List.map_append, List.nodup_append] at this
        intro hqt
        have hq2 : q.2 = t := hqt
        exact this.2.2 (List.mem_map.mpr ⟨q, hq, rfl⟩) (by simp [hq2])
      have hstep := rankFold_eq F hsort hnd rest (M ++ [(s, t)])
        (some (1 + posGreaterCount F s, s))
        (if 0 < s then counter + 1 else counter)
        (by rw [hF, List.append_assoc]; rfl)
        (by intro h; cases h)
        (by
          intro r0 s0 h
          injection h with h
          injection h with h1 h2
          subst h2
          refine ⟨⟨t, List.mem_append_right _ (List.mem_singleton_self _)⟩, ?_, h1.symm, ?_⟩
          · intro q hq
            rcases List.mem_append.mp hq with hq | hq
            · exact hM_ge q hq
            · rw [List.mem_singleton.mp hq]
          · rw [List.countP_append, hcnt]
            by_cases hs : 0 < s <;> simp [hs, Nat.add_assoc])
      simp only [rankFold]
      rw [dinsert_of_not_mem _ hkeys, hrank]
      have : (M.map (fun p => (p.2, 1 + posGreaterCount F p.1))) ++
          [(t, 1 + posGreaterCount F s)] =
          (M ++ [(s, t)]).map (fun p => (p.2, 1 + posGreaterCount F p.1)) := by
        simp
      rw [this]
      exact hstep

end SaarCTF2024

lemma alookup_map_snd {K : Type} (g : (K × TeamName) → ℕ) :
    ∀ (F : List (K × TeamName)), ((F.map (·.2)).Nodup) → ∀ p ∈ F,
      alookup (F.map (fun q => (q.2, g q))) p.2 = some (g p)
  | [], _, p, hp => by cases hp
  | q :: rest, hnd, p, hp => by
    have hnd' := hnd
    rw [List.map_cons, List.nodup_cons] at hnd'
    by_cases he : q.2 = p.2
    · rcases List.mem_cons.mp hp with rfl | hp
      · simp [alookup, List.find?_cons_of_pos]
      · exact absurd (he ▸ List.mem_map.mpr ⟨p, hp, rfl⟩) hnd'.1
    · rcases List.mem_cons.mp hp with rfl | hp
      · exact absurd rfl he
      · rw [List.map_cons, alookup, List.find?_cons_of_neg _ (by simpa using he)]
        exact alookup_map_snd g rest hnd'.2 p hp

/-- C4 (amended): `SaarCTF2024._rank` computes *competition* ("1224")
ranking over the positive scores, not dense ranking: for distinct team
names, each team's rank is `1 +` the number of teams whose combined score
is both strictly greater than its own and strictly positive.  In
particular teams tied in score share a rank, all teams with
`combined ≤ 0` share the last active rank, and the counter advances once
per positive-score team (so after a tie the next distinct score's rank
skips ahead, which is where the claim's dense-ranking wording fails). -/
theorem saar_rank_is_competition_ranking {K : Type} [LinearOrderedField K]
    (sb : Sb K) (teams : List TeamName) (hnd : teams.Nodup)
    (t : TeamName) (ht : t ∈ teams) :
    alookup (SaarCTF2024.rank sb teams) t =
      some (1 + (teams.filter (fun u =>
        decide ((sb t).combined < (sb u).combined ∧ 0 < (sb u).combined))).length) := by
  have hperm : ((teams.map (fun u => ((sb u).combined, u))).insertionSort
      SaarCTF2024.descRel).Perm (teams.map (fun u => ((sb u).combined, u))) :=
    List.perm_insertionSort _ _
  set F := (teams.map (fun u => ((sb u).combined, u))).insertionSort
    SaarCTF2024.descRel with hFdef
  have hsort : F.Pairwise SaarCTF2024.descRel := List.sorted_insertionSort _ _
  have hmap2 : (teams.map (fun u => ((sb u).combined, u))).map (·.2) = teams := by
    rw [List.map_map]
    exact List.map_id teams
  have hndpairs : ((teams.map (fun u => ((sb u).combined, u))).map (·.2)).Nodup := by
    rw [hmap2]; exact hnd
  have hndF : (F.map (·.2)).Nodup := (hperm.map (·.2)).symm.nodup hndpairs
  have hrankeq := SaarCTF2024.rankFold_eq F hsort hndF F [] none 1 rfl
    (fun _ => ⟨rfl, rfl⟩) (by rintro r0 s0 ⟨⟩)
  have hrw : SaarCTF2024.rank sb teams =
      F.map (fun p => (p.2, 1 + SaarCTF2024.posGreaterCount F p.1)) := by
    rw [SaarCTF2024.rank]
    exact hrankeq
  rw [hrw]
  have hkt : ((sb t).combined, t) ∈ F :=
    hperm.symm.subset (List.mem_map.mpr ⟨t, ht, rfl⟩)
  have hlook := alookup_map_snd
    (fun p => 1 + SaarCTF2024.posGreaterCount F p.1) F hndF _ hkt
  rw [hlook]
  congr 1
  simp only [SaarCTF2024.posGreaterCount]
  rw [hperm.countP_eq, List.countP_map, List.countP_eq_length_filter]
  rfl

/-- Witness for `saar_rank_is_competition_ranking`, at the scoreboard
`A ↦ 5, B ↦ 5, C ↦ 3` (team `C` has two positive strictly-greater scores
above it, so its rank is `1 + 2 = 3`). -/
theorem saar_rank_is_competition_ranking_witness :
    alookup (SaarCTF2024.rank sbRanked ["A", "B", "C"]) "C" =
      some (1 + ((["A", "B", "C"] : List TeamName).filter (fun u =>
        decide ((sbRanked "C").combined < (sbRanked u).combined ∧
          0 < (sbRanked u).combined))).length) :=
  saar_rank_is_competition_ranking sbRanked ["A", "B", "C"] (by decide) "C"
    (by decide)

/-- C4 counterexample: `_rank` is *not* dense ranking.  With combined
scores `A ↦ 5, B ↦ 5, C ↦ 3`, the two tied teams share rank 1, but the
counter advanced for **each** of them (both scores are positive), so the
next distinct score 3 gets rank 3 — dense ranking ("the next distinct
score's rank equals the previous distinct rank + 1") would give rank 2. -/
theorem saar_rank_not_dense_counterexample :
    alookup (SaarCTF2024.rank sbRanked ["A", "B", "C"]) "C" = some 3 ∧
      ¬ alookup (SaarCTF2024.rank sbRanked ["A", "B", "C"]) "C" = some 2 := by
  constructor <;>
  simp [SaarCTF2024.rank, SaarCTF2024.rankFold, SaarCTF2024.pickRank,
    List.insertionSort, List.orderedInsert, SaarCTF2024.descRel, dinsert,
    alookup, sbRanked, List.find?]

/-- C10: `ATKLABv1.evaluate` never reads `self.scaling_factor`
(atklabv1.py declares it on line 19 and never uses it), so two runs that
differ only in `scaling_factor` produce identical outcomes. -/
theorem atklabv1_scaling_factor_unused (x y : ℚ) (nop : Option TeamName)
    (ctf : CTF) :
    ATKLABv1.evaluate ⟨x, nop⟩ ctf = ATKLABv1.evaluate ⟨y, nop⟩ ctf := rfl

/-- C9: each formula raises (produces an error, no scoreboard) when its
required preconditions fail: a configured NOP team absent from
`ctf.teams` (all four formulas), an unset `flag_retention` (ATKLABv1), or
an unset `flag_validity` (ATKLABv2, ECSC2025).  The evaluation is a pure
function of the immutable `CTF`, so the `CTF` value is unchanged by the
failed run. -/
theorem evaluate_precondition_errors {K : Type} [LinearOrderedField K]
    (ctf : CTF) (t : TeamName) (p1 : ATKLABv1.Params) (p2 : ATKLABv2.Params K)
    (p3 : ECSC2025.Params) (p4 : SaarCTF2024.Params) :
    (p1.nop_team = some t → p2.nop_team = some t → p3.nop_team = some t →
      p4.nop_team = some t → t ∉ ctf.teams →
      (∃ e, ATKLABv1.evaluate p1 ctf = .error e) ∧
      (∃ e, ATKLABv2.evaluate p2 ctf = .error e) ∧
      (∃ e, ECSC2025.evaluate p3 ctf = .error e) ∧
      (∃ e, SaarCTF2024.evaluate p4 ctf = .error e)) ∧
    (ctf.config.flag_retention = none →
      ∃ e, ATKLABv1.evaluate p1 ctf = .error e) ∧
    (ctf.config.flag_validity = none →
      (∃ e, ATKLABv2.evaluate p2 ctf = .error e) ∧
      (∃ e, ECSC2025.evaluate p3 ctf = .error e)) := by
  refine ⟨?_, ?_, ?_⟩
  · intro h1 h2 h3 h4 hm
    refine ⟨⟨.nopNotFound, ?_⟩, ⟨.nopNotFound, ?_⟩, ⟨.nopNotFound, ?_⟩,
      ⟨.nopNotFound, ?_⟩⟩
    · rw [ATKLABv1.evaluate, if_pos ⟨t, h1, hm⟩]
    · rw [ATKLABv2.evaluate, if_pos ⟨t, h2, hm⟩]
    · rw [ECSC2025.evaluate, if_pos ⟨t, h3, hm⟩]
    · rw [SaarCTF2024.evaluate, if_pos ⟨t, h4, hm⟩]
  · intro hr
    by_cases hn : nopMissing p1.nop_team ctf.teams
    · exact ⟨.nopNotFound, by rw [ATKLABv1.evaluate, if_pos hn]⟩
    · exact ⟨.noFlagRetention, by rw [ATKLABv1.evaluate, if_neg hn, if_pos hr]⟩
  · intro hv
    constructor
    · by_cases hn : nopMissing p2.nop_team ctf.teams
      · exact ⟨.nopNotFound, by rw [ATKLABv2.evaluate, if_pos hn]⟩
      · exact ⟨.noFlagValidity, by rw [ATKLABv2.evaluate, if_neg hn, if_pos hv]⟩
    · by_cases hn : nopMissing p3.nop_team ctf.teams
      · exact ⟨.nopNotFound, by rw [ECSC2025.evaluate, if_pos hn]⟩
      · exact ⟨.noFlagValidity, by rw [ECSC2025.evaluate, if_neg hn, if_pos hv]⟩

/-- Witness for `evaluate_precondition_errors` on `ctfBare` with NOP team
`"X" ∉ ["A"]` and both config fields unset. -/
theorem evaluate_precondition_errors_witness :
    ((∃ e, ATKLABv1.evaluate ⟨5, some "X"⟩ ctfBare = .error e) ∧
      (∃ e, ATKLABv2.evaluate
        ⟨fun _ _ _ _ _ _ => (0 : ℚ), none, none, 10, 1, .Scaled, true, some "X"⟩
        ctfBare = .error e) ∧
      (∃ e, ECSC2025.evaluate ⟨10, some "X"⟩ ctfBare = .error e) ∧
      (∃ e, SaarCTF2024.evaluate ⟨1, 1, 1, some "X", true⟩ ctfBare = .error e)) ∧
    (∃ e, ATKLABv1.evaluate ⟨5, some "X"⟩ ctfBare = .error e) ∧
    ((∃ e, ATKLABv2.evaluate
        ⟨fun _ _ _ _ _ _ => (0 : ℚ), none, none, 10, 1, .Scaled, true, some "X"⟩
        ctfBare = .error e) ∧
      (∃ e, ECSC2025.evaluate ⟨10, some "X"⟩ ctfBare = .error e)) := by
  have H := evaluate_precondition_errors ctfBare "X" ⟨5, some "X"⟩
    ⟨fun _ _ _ _ _ _ => (0 : ℚ), none, none, 10, 1, .Scaled, true, some "X"⟩
    ⟨10, some "X"⟩ ⟨1, 1, 1, some "X", true⟩
  exact ⟨H.1 rfl rfl rfl rfl (by decide), H.2.1 rfl, H.2.2 rfl⟩

/-! ### C8: the SaarCTF2024 defense increment -/

/-- C8: the per-flag defense increments and the assertion guarding them
(saarctf2024.py lines 147-175) are dead code.  A round with a team entry
raises `TypeError` in its SLA pass (line 87), *before* that round's
defense pass; a round without team entries leaves its `captured_flags`
set empty.  So in every completed evaluation every round is empty and its
`captured_flags` set (`capturedList`) is empty: the defense loop — the
computation `(previous_damage - current_damage) / flag_rate * def_factor`
and the `assert damage < 0 or (not victim_sla and damage <= 0)` at
line 174 — executes on no flag on any input.  The claimed properties
(every increment `≤ 0`, strictly `< 0` under nonzero victim SLA, the
assertion never fails) hold vacuously: no increment is ever computed and
the assertion is never executed. -/
theorem saar_defense_increment_vacuous (p : SaarCTF2024.Params) (ctf : CTF)
    (sb : Sb ℝ) (h : SaarCTF2024.evaluate p ctf = .ok sb) :
    ∀ rd ∈ ctf.rounds, rd = [] ∧
      SaarCTF2024.capturedList p.nop_team ctf rd = [] := by
  obtain ⟨he, -⟩ := saar_ok h
  intro rd hrd
  refine ⟨he rd hrd, ?_⟩
  rw [he rd hrd]
  rfl

/-- Witness for `saar_defense_increment_vacuous` on `ctfEmptyNop`. -/
theorem saar_defense_increment_vacuous_witness :
    ([] : List (TeamName × TeamRoundData)) = [] ∧
      SaarCTF2024.capturedList pSaarNop.nop_team ctfEmptyNop [] = [] := by
  have h : SaarCTF2024.evaluate pSaarNop ctfEmptyNop = .ok Sb.init := rfl
  exact saar_defense_increment_vacuous pSaarNop ctfEmptyNop Sb.init h []
    (List.mem_cons_self _ _)

/-! ### C3: slice evaluation vs the prefix scoreboard -/

/-- C3 counterexample: `ctfSlice.slice(0, 1)` contains a populated round
(`B` captures `A`'s flag), so `ATKLABv1.evaluate` on the slice raises
`TypeError` at `scoreboard[team] += score` instead of yielding any
scoreboard — let alone the claimed prefix-scoreboard of the full
evaluation, which aborts the same way. -/
theorem slice_not_additive_counterexample :
    ATKLABv1.evaluate ⟨5, none⟩ (ctfSlice.slice 0 1) = .error .scoringRaises ∧
    ATKLABv1.evaluate ⟨5, none⟩ ctfSlice = .error .scoringRaises ∧
    ¬ ∃ sb, ATKLABv1.evaluate ⟨5, none⟩ (ctfSlice.slice 0 1) = .ok sb := by
  refine ⟨rfl, rfl, ?_⟩
  rintro ⟨sb, h⟩
  rw [show ATKLABv1.evaluate ⟨5, none⟩ (ctfSlice.slice 0 1)
      = .error .scoringRaises from rfl] at h
  cases h

/-- C3 (amended): slice-vs-prefix additivity is degenerate in the
program.  Each additive formula completes on `ctf.slice(0, r)` only when
the sliced rounds contain no team data (any team entry raises `TypeError`
in the round loop); the resulting scoreboard is then the untouched
default board, and whenever the evaluation of the full CTF also
completes, the two scoreboards agree — there are no per-round
contributions to accumulate on either side. -/
theorem slice_prefix_additivity_degenerate {K : Type} [LinearOrderedField K]
    (ctf : CTF) (r : ℕ) (p1 : ATKLABv1.Params) (p2 : ATKLABv2.Params K)
    (p3 : ECSC2025.Params) :
    (∀ sb, ATKLABv1.evaluate p1 (ctf.slice 0 r) = .ok sb →
      (∀ rd ∈ (ctf.slice 0 r).rounds, rd = []) ∧
        (∀ t, sb t = Score4.dflt 0 0 0) ∧
        ∀ sbf, ATKLABv1.evaluate p1 ctf = .ok sbf → ∀ t, sb t = sbf t) ∧
    (∀ sb, ATKLABv2.evaluate p2 (ctf.slice 0 r) = .ok sb →
      (∀ rd ∈ (ctf.slice 0 r).rounds, rd = []) ∧
        (∀ t, sb t = Score4.dflt 0 0 0) ∧
        ∀ sbf, ATKLABv2.evaluate p2 ctf = .ok sbf → ∀ t, sb t = sbf t) ∧
    (∀ sb, ECSC2025.evaluate p3 (ctf.slice 0 r) = .ok sb →
      (∀ rd ∈ (ctf.slice 0 r).rounds, rd = []) ∧
        (∀ t, sb t = Score4.dflt 0 0 0) ∧
        ∀ sbf, ECSC2025.evaluate p3 ctf = .ok sbf → ∀ t, sb t = sbf t) := by
  refine ⟨?_, ?_, ?_⟩ <;> intro sb h
  · obtain ⟨he, rfl⟩ := atklabv1_ok h
    refine ⟨he, fun t => rfl, fun sbf hf t => ?_⟩
    obtain ⟨-, rfl⟩ := atklabv1_ok hf
    rfl
  · obtain ⟨he, rfl⟩ := atklabv2_ok h
    refine ⟨he, fun t => rfl, fun sbf hf t => ?_⟩
    obtain ⟨-, rfl⟩ := atklabv2_ok hf
    rfl
  · obtain ⟨he, rfl⟩ := ecsc2025_ok h
    refine ⟨he, fun t => rfl, fun sbf hf t => ?_⟩
    obtain ⟨-, rfl⟩ := ecsc2025_ok hf
    rfl

/-- Witness for `slice_prefix_additivity_degenerate` on `ctfEmptyNop`
with `r = 1`: all three formulas complete on the slice and on the full
CTF. -/
theorem slice_prefix_additivity_degenerate_witness :
    ((∀ rd ∈ (ctfEmptyNop.slice 0 1).rounds, rd = []) ∧
      (∀ t, (Sb.init : Sb ℚ) t = Score4.dflt 0 0 0) ∧
      (∀ t, (Sb.init : Sb ℚ) t = Sb.init t)) ∧
    ((∀ rd ∈ (ctfEmptyNop.slice 0 1).rounds, rd = []) ∧
      (∀ t, (Sb.init : Sb ℚ) t = Score4.dflt 0 0 0)) := by
  have H := slice_prefix_additivity_degenerate ctfEmptyNop 1
    ATKLABv1.Params.dflt pV2n pE25n
  have H1 := H.1 Sb.init rfl
  have H2 := H.2.1 Sb.init rfl
  have H3 := H.2.2 Sb.init rfl
  exact ⟨⟨H1.1, H1.2.1, fun t => H1.2.2 Sb.init rfl t⟩, H2.1, H3.2.1⟩

/-! ### C6: nonnegativity of the ATK category -/

end SPG
